import Mathlib

/-!
Shallow embedding of `src/rust_rcon.py`, a single-file RCON client for Rust
game servers over WebSockets.  The Python program has one exception class
(`RustRCONError`) whose instances differ only in their message strings; each
raise site is embedded as a constructor of an error inductive, and
`RustRCONError.message` reconstructs the exact Python message string.
External effects (the websocket library, `json.loads`) are modelled by
outcome oracles passed to the embedded functions; each function also returns
the list of transport events it performed, so that claims about "no I/O" or
"number of connection attempts" are statable.
-/

/-- JSON values as far as this program observes them (numbers, strings,
booleans, null; the program never inspects nested objects or arrays). -/
inductive JVal where
  | jnum (n : Int)
  | jstr (s : String)
  | jbool (b : Bool)
  | jnull
deriving DecidableEq

/-- A decoded JSON object, as returned by `json.loads` on a reply
(association list of keys to values, in document order). -/
abbrev Response := List (String × JVal)

/-- Each constructor corresponds to one `raise RustRCONError(...)` site in
`src/rust_rcon.py`; the carried data is what the message string interpolates. -/
inductive RustRCONError where
  | connectionTimeout
  | authenticationFailed
  | connectionRefused (status : Nat)
  | connectionError (detail : String)
  | notConnected
  | serverTimeout
  | malformedResponse
  | transportError (detail : String)
deriving DecidableEq

/-- The exact message string each raise site passes to `RustRCONError(...)`. -/
def RustRCONError.message : RustRCONError → String
  | .connectionTimeout => "Connection timed out. Check your host and port."
  | .authenticationFailed => "Authentication failed. Check your password."
  | .connectionRefused s => "Connection failed with status code: " ++ toString s
  | .connectionError d => "Failed to connect: " ++ d
  | .notConnected => "Not connected to server. Call connect() first."
  | .serverTimeout => "Server did not respond in time."
  | .malformedResponse => "Received invalid JSON response from server."
  | .transportError d => "Error sending command: " ++ d

/-- The state of a websocket object held in `self.ws`: the underlying
connection is open until `close()` is called on it. -/
structure WsConn where
  closed : Bool
deriving DecidableEq

/-- State of a `RustRCONClient` instance: the fields assigned in
`__init__` (logging configuration aside, which has no bearing on
the claims). -/
structure RustRCONClient where
  host : String
  port : Nat
  password : String
  verbose : Bool
  ws : Option WsConn
  request_id : Nat
deriving DecidableEq

/-- `RustRCONClient.__init__`: `self.ws = None`, `self.request_id = 0`. -/
def RustRCONClient.init (host : String) (port : Nat) (password : String)
    (verbose : Bool) : RustRCONClient :=
  { host := host, port := port, password := password, verbose := verbose,
    ws := none, request_id := 0 }

/-- The URL built by `connect`: `ws://{host}:{port}/{password}`. -/
def connectUrl (c : RustRCONClient) : String :=
  "ws://" ++ c.host ++ ":" ++ toString c.port ++ "/" ++ c.password

/-- Outcome of `websocket.create_connection(url, timeout=10)`: success, or
one of the exception classes `connect` catches. -/
inductive ConnectOutcome where
  | success
  | timeout
  | badStatus (status : Nat)
  | otherExn (detail : String)
deriving DecidableEq

/-- Transport events, recorded so that claims about attempted I/O are
statable.  `sent` records that `ws.send` was invoked with the given payload
(whether or not it succeeded); `received` that `ws.recv` returned the raw
text; `wsClosed` that `ws.close()` was invoked. -/
inductive WsEvent where
  | connectAttempt
  | wsOpened
  | sent (payload : List (String × JVal))
  | received (raw : String)
  | wsClosed
deriving DecidableEq

/-- `RustRCONClient.connect`: tries `create_connection`; on success assigns
`self.ws`; maps `WebSocketTimeoutException` to the timeout error,
`WebSocketBadStatusException` by its status code (401 versus others), and
any other exception to the generic connection failure.  On an exception
`self.ws` is never assigned. -/
def RustRCONClient.connect (c : RustRCONClient) (io : ConnectOutcome) :
    RustRCONClient × List WsEvent × Except RustRCONError Unit :=
  match io with
  | .success => ({ c with ws := some { closed := false } },
      [.connectAttempt, .wsOpened], .ok ())
  | .timeout => (c, [.connectAttempt], .error .connectionTimeout)
  | .badStatus s => (c, [.connectAttempt],
      .error (if s = 401 then .authenticationFailed else .connectionRefused s))
  | .otherExn d => (c, [.connectAttempt], .error (.connectionError d))

/-- `RustRCONClient.disconnect`: `if self.ws: self.ws.close()`.  The handle
`self.ws` is not cleared; closing marks the underlying connection closed.
The websocket library's `close` is total (it does not raise on an already
closed connection), so `disconnect` is a total function. -/
def RustRCONClient.disconnect (c : RustRCONClient) :
    RustRCONClient × List WsEvent :=
  match c.ws with
  | none => (c, [])
  | some _ => ({ c with ws := some { closed := true } }, [.wsClosed])

/-- The dict serialized by `json.dumps` in `send_command`, in source order. -/
def requestPayload (id : Nat) (cmd : String) : List (String × JVal) :=
  [("Identifier", JVal.jnum id), ("Message", JVal.jstr cmd),
   ("Name", JVal.jstr "WebRcon")]

/-- Outcome of the `ws.send` / `ws.recv` / `json.loads` sequence on an open
connection: `send` raising, `recv` timing out, `recv` raising, or a reply
arriving (with `decoded` the result of `json.loads` on it, `none` meaning
`json.JSONDecodeError`). -/
inductive ExchangeOutcome where
  | sendExn (detail : String)
  | recvTimeout
  | recvExn (detail : String)
  | reply (raw : String) (decoded : Option Response)
deriving DecidableEq

/-- Result of `send_command`: the updated client, the transport events
performed, and either the decoded response or the raised error. -/
structure ExchangeResult where
  client : RustRCONClient
  events : List WsEvent
  result : Except RustRCONError Response

/-- `RustRCONClient.send_command`: guard `if not self.ws` (raising the
not-connected error with no I/O), then `self.request_id += 1`, then build the
payload and `ws.send` it.  On a closed underlying connection `ws.send`
raises the websocket library's connection-closed exception, which the
generic handler turns into the transport error with that exception's
message.  Otherwise recv timeouts, recv exceptions, decode failures and
successful replies map per the `except` clauses. -/
def RustRCONClient.send_command (c : RustRCONClient) (command : String)
    (io : ExchangeOutcome) : ExchangeResult :=
  match c.ws with
  | none => ⟨c, [], .error .notConnected⟩
  | some w =>
    let c' := { c with request_id := c.request_id + 1 }
    let msg := requestPayload c'.request_id command
    if w.closed then
      ⟨c', [.sent msg], .error (.transportError "Connection is already closed.")⟩
    else
      match io with
      | .sendExn d => ⟨c', [.sent msg], .error (.transportError d)⟩
      | .recvTimeout => ⟨c', [.sent msg], .error .serverTimeout⟩
      | .recvExn d => ⟨c', [.sent msg], .error (.transportError d)⟩
      | .reply raw none =>
          ⟨c', [.sent msg, .received raw], .error .malformedResponse⟩
      | .reply raw (some r) => ⟨c', [.sent msg, .received raw], .ok r⟩

/-- The command-line arguments `main` parses (argparse: `--host`, `--port`,
`--password`, `--command` with `nargs` plus, `--verbose`, `--raw`).  There
is no retry-related option. -/
structure Args where
  host : String
  port : Nat
  password : String
  command : List String
  verbose : Bool
  raw : Bool
deriving DecidableEq

/-- What the environment does during one run of `main`'s try block:
a normal run driven by the connect and exchange oracles, a
`KeyboardInterrupt` delivered inside `create_connection` (before `self.ws`
is assigned), a `KeyboardInterrupt` delivered while blocked in `ws.recv`
(after the send), or a non-RCON exception raised after a successful
connect (e.g. from printing). -/
inductive MainIO where
  | run (cio : ConnectOutcome) (sio : ExchangeOutcome)
  | interruptDuringConnect
  | interruptAwaitingReply
  | unexpectedAfterConnect (detail : String)
deriving DecidableEq

/-- One line printed by `main`, recorded symbolically. -/
inductive OutLine where
  | rawResponse (r : Response)
  | serverResponseHeader
  | messageField (v : Option JVal)
  | rconError (msg : String)
  | interruptedMsg
  | unexpectedError (msg : String)
deriving DecidableEq

/-- Result of one process run: the exit code, the transport events, and the
lines printed. -/
structure MainResult where
  exitCode : Nat
  events : List WsEvent
  output : List OutLine
deriving DecidableEq

/-- The body of `main` after argument parsing: create the client, then
`try: connect; send_command; print` with `except RustRCONError` exiting 1,
`except KeyboardInterrupt` printing and falling through (exit 0),
`except Exception` exiting 1, and `finally: client.disconnect()` running on
every path.  `sys.exit(1)` raises `SystemExit`, so the `finally` block still
runs before the process exits. -/
def mainRun (args : Args) (mio : MainIO) : MainResult :=
  let c0 := RustRCONClient.init args.host args.port args.password args.verbose
  match mio with
  | .run cio sio =>
    let (c1, ev1, r1) := c0.connect cio
    match r1 with
    | .error e =>
        let (_, evd) := c1.disconnect
        ⟨1, ev1 ++ evd, [.rconError e.message]⟩
    | .ok _ =>
        let res := c1.send_command (String.intercalate " " args.command) sio
        let (_, evd) := res.client.disconnect
        match res.result with
        | .ok resp =>
            ⟨0, ev1 ++ res.events ++ evd,
             if args.raw then [OutLine.rawResponse resp]
             else [.serverResponseHeader, .messageField (resp.lookup "Message")]⟩
        | .error e => ⟨1, ev1 ++ res.events ++ evd, [.rconError e.message]⟩
  | .interruptDuringConnect =>
      ⟨0, [.connectAttempt], [.interruptedMsg]⟩
  | .interruptAwaitingReply =>
      ⟨0, [.connectAttempt, .wsOpened,
           .sent (requestPayload 1 (String.intercalate " " args.command)),
           .wsClosed],
       [.interruptedMsg]⟩
  | .unexpectedAfterConnect d =>
      ⟨1, [.connectAttempt, .wsOpened, .wsClosed], [.unexpectedError d]⟩

/-- The whole process: argparse either yields parsed arguments or prints a
usage error and exits with status 2 before any client exists. -/
def program (parsed : Option Args) (mio : MainIO) : MainResult :=
  match parsed with
  | none => ⟨2, [], []⟩
  | some a => mainRun a mio

/-- Counts the connection attempts in an event trace. -/
def countAttempts (l : List WsEvent) : Nat :=
  (l.filter (fun e => match e with | .connectAttempt => true | _ => false)).length

/-- Whether one open-plus-execute attempt succeeds: connect succeeds and the
reply decodes. -/
def attemptOk : ConnectOutcome → ExchangeOutcome → Bool
  | .success, .reply _ (some _) => true
  | _, _ => false

/-- Sample parsed arguments, used by witnesses. -/
def argsEx : Args :=
  { host := "localhost", port := 28016, password := "pw",
    command := ["status"], verbose := false, raw := false }

/-- Sample connected client (post-`connect`) used by witnesses. -/
def clientEx : RustRCONClient :=
  { host := "localhost", port := 28016, password := "pw", verbose := false,
    ws := some { closed := false }, request_id := 0 }

/-- Claim C7: calling send_command when the session is not open fails with
the NotConnected error kind without attempting any I/O (the event trace is
empty and the client, counter included, is unchanged). -/
theorem send_command_not_connected (c : RustRCONClient) (cmd : String)
    (io : ExchangeOutcome) (h : c.ws = none) :
    c.send_command cmd io = ⟨c, [], .error .notConnected⟩ := by
  simp [RustRCONClient.send_command, h]

/-- Witness for send_command_not_connected at a freshly initialized client. -/
theorem send_command_not_connected_witness :
    (RustRCONClient.init "localhost" 28016 "pw" false).send_command "status"
        (.reply "x" none)
      = ⟨RustRCONClient.init "localhost" 28016 "pw" false, [],
         .error .notConnected⟩ :=
  send_command_not_connected _ _ _ rfl

/-- Claim C10: a NotConnected failure leaves the identifier counter
unchanged (the guard precedes the increment), while every outcome reached
past the guard — closed-connection send, send exception, receive timeout,
receive exception, decode failure, or success — leaves the counter
incremented by exactly 1, never rolled back. -/
theorem send_command_counter_discipline (c : RustRCONClient) (cmd : String)
    (io : ExchangeOutcome) :
    (c.ws = none → (c.send_command cmd io).client.request_id = c.request_id
        ∧ (c.send_command cmd io).result = .error .notConnected)
    ∧ (∀ w, c.ws = some w →
        (c.send_command cmd io).client.request_id = c.request_id + 1) := by
  constructor
  · intro h
    simp [RustRCONClient.send_command, h]
  · intro w hw
    rcases w with ⟨cl⟩
    rcases io with d | _ | d | ⟨raw, _ | r⟩ <;> cases cl <;>
      simp [RustRCONClient.send_command, hw]

/-- Witness for send_command_counter_discipline at the sample client. -/
theorem send_command_counter_discipline_witness :
    (clientEx.send_command "status" (.reply "x" none)).client.request_id = 1 :=
  (send_command_counter_discipline clientEx "status" (.reply "x" none)).2
    ⟨false⟩ rfl

/-- Claim C2: the request identifier counter starts at 0 when the client is
created, is pre-incremented on each send (the sent payload carries the
incremented value), increases by exactly 1 per send_command call, and the
first command after a successful connect uses identifier 1. -/
theorem request_id_pre_increment :
    (∀ h p pw v, (RustRCONClient.init h p pw v).request_id = 0)
    ∧ (∀ (c : RustRCONClient) cmd io w, c.ws = some w →
        (c.send_command cmd io).client.request_id = c.request_id + 1
        ∧ (c.send_command cmd io).events.head?
            = some (.sent (requestPayload (c.request_id + 1) cmd)))
    ∧ (∀ h p pw v cmd io,
        (((RustRCONClient.init h p pw v).connect .success).1.send_command
            cmd io).events.head?
          = some (.sent (requestPayload 1 cmd))) := by
  refine ⟨fun h p pw v => rfl, ?_, ?_⟩
  · intro c cmd io w hw
    rcases w with ⟨cl⟩
    rcases io with d | _ | d | ⟨raw, _ | r⟩ <;> cases cl <;>
      simp [RustRCONClient.send_command, hw]
  · intro h p pw v cmd io
    rcases io with d | _ | d | ⟨raw, _ | r⟩ <;>
      simp [RustRCONClient.send_command, RustRCONClient.connect,
            RustRCONClient.init]

/-- Witness for request_id_pre_increment at the sample connected client. -/
theorem request_id_pre_increment_witness :
    (clientEx.send_command "status" (.reply "x" none)).events.head?
      = some (.sent (requestPayload 1 "status")) :=
  (request_id_pre_increment.2.1 clientEx "status" (.reply "x" none)
    ⟨false⟩ rfl).2

/-- Claim C3: the serialized request payload has exactly the keys
Identifier, Message and Name in that order, with Name the fixed literal
WebRcon; command text status with identifier 1 encodes exactly that record,
and the payload send_command puts on the wire is requestPayload at the
incremented counter. -/
theorem request_payload_exact_keys :
    (∀ id cmd, (requestPayload id cmd).map Prod.fst
        = ["Identifier", "Message", "Name"])
    ∧ requestPayload 1 "status"
        = [("Identifier", .jnum 1), ("Message", .jstr "status"),
           ("Name", .jstr "WebRcon")]
    ∧ (∀ (c : RustRCONClient) cmd io w, c.ws = some w →
        (c.send_command cmd io).events.head?
          = some (.sent (requestPayload (c.request_id + 1) cmd))) := by
  refine ⟨fun id cmd => rfl, rfl, ?_⟩
  intro c cmd io w hw
  rcases w with ⟨cl⟩
  rcases io with d | _ | d | ⟨raw, _ | r⟩ <;> cases cl <;>
    simp [RustRCONClient.send_command, hw]

/-- Witness for request_payload_exact_keys at the sample connected client. -/
theorem request_payload_exact_keys_witness :
    (clientEx.send_command "status" (.reply "x" (some []))).events.head?
      = some (.sent (requestPayload 1 "status")) :=
  request_payload_exact_keys.2.2 clientEx "status" (.reply "x" (some []))
    ⟨false⟩ rfl

/-- Claim C6: disconnect on a never-opened client (ws is None) is a no-op,
and disconnect is total and idempotent on the client state, so calling it
twice in succession never faults. -/
theorem disconnect_idempotent :
    (∀ c : RustRCONClient, c.ws = none → c.disconnect = (c, []))
    ∧ (∀ c : RustRCONClient, c.disconnect.1.disconnect.1 = c.disconnect.1) := by
  constructor
  · intro c h
    simp [RustRCONClient.disconnect, h]
  · intro c
    rcases hc : c.ws with _ | w <;> simp [RustRCONClient.disconnect, hc]

/-- Witness for disconnect_idempotent at a never-connected client. -/
theorem disconnect_idempotent_witness :
    (RustRCONClient.init "h" 1 "p" false).disconnect
      = (RustRCONClient.init "h" 1 "p" false, []) :=
  disconnect_idempotent.1 _ rfl

/-- Claim C9: disconnect does not clear the connection handle, so a
send_command on a previously connected, then disconnected client does not
hit the NotConnected guard: it increments the counter, attempts the send on
the closed connection, and surfaces the failure as the transport-level
error wrapping the websocket library's connection-closed exception. -/
theorem send_after_disconnect (c : RustRCONClient) (w : WsConn)
    (cmd : String) (io : ExchangeOutcome) (h : c.ws = some w) :
    c.disconnect.1.ws = some { closed := true }
    ∧ (c.disconnect.1.send_command cmd io).result
        = .error (.transportError "Connection is already closed.")
    ∧ (c.disconnect.1.send_command cmd io).result ≠ .error .notConnected
    ∧ (c.disconnect.1.send_command cmd io).client.request_id
        = c.request_id + 1
    ∧ (c.disconnect.1.send_command cmd io).events
        = [.sent (requestPayload (c.request_id + 1) cmd)] := by
  simp [RustRCONClient.disconnect, h, RustRCONClient.send_command]

/-- Witness for send_after_disconnect at the sample connected client. -/
theorem send_after_disconnect_witness :
    (clientEx.disconnect.1.send_command "status" (.reply "x" (some []))).result
      = .error (.transportError "Connection is already closed.") :=
  (send_after_disconnect clientEx ⟨false⟩ "status" (.reply "x" (some []))
    rfl).2.1

/-- Counterexample to claim C5: two distinct non-decodable reply payloads
produce the very same error value, so the decode-failure error cannot be
carrying the original raw payload text. -/
theorem malformed_drops_raw_cex :
    (clientEx.send_command "status" (.reply "@not-json" none)).result
      = (clientEx.send_command "status" (.reply "]]other[[" none)).result
    ∧ "@not-json" ≠ "]]other[[" :=
  ⟨rfl, by decide⟩

/-- Claim C5 as amended: a reply payload that fails to decode makes
send_command fail with the malformed-response error, whose message is the
fixed string with no occurrence of the raw payload; the raw payload is
received (and so observable in the debug log) but is not carried by the
error. -/
theorem malformed_fixed_message (c : RustRCONClient) (w : WsConn)
    (cmd raw : String) (h : c.ws = some w) (hw : w.closed = false) :
    (c.send_command cmd (.reply raw none)).result = .error .malformedResponse
    ∧ RustRCONError.malformedResponse.message
        = "Received invalid JSON response from server."
    ∧ (c.send_command cmd (.reply raw none)).events
        = [.sent (requestPayload (c.request_id + 1) cmd), .received raw] := by
  refine ⟨?_, rfl, ?_⟩ <;> simp [RustRCONClient.send_command, h, hw]

/-- Witness for malformed_fixed_message at the sample connected client. -/
theorem malformed_fixed_message_witness :
    (clientEx.send_command "status" (.reply "oops" none)).result
      = .error .malformedResponse :=
  (malformed_fixed_message clientEx ⟨false⟩ "status" "oops" rfl rfl).1

/-- Claim C4: a handshake rejection with status exactly 401 yields the
authentication-failed error, any other rejection status S yields the
connection-refused error carrying S, and the two outcomes are distinct,
distinguishable conditions (distinct error values with distinct message
strings). -/
theorem connect_status_mapping :
    (∀ c : RustRCONClient,
        (c.connect (.badStatus 401)).2.2 = .error .authenticationFailed)
    ∧ (∀ (c : RustRCONClient) s, s ≠ 401 →
        (c.connect (.badStatus s)).2.2 = .error (.connectionRefused s))
    ∧ (∀ s, (RustRCONError.authenticationFailed : RustRCONError)
        ≠ .connectionRefused s)
    ∧ (∀ s, RustRCONError.authenticationFailed.message
        ≠ (RustRCONError.connectionRefused s).message) := by
  refine ⟨fun c => rfl, ?_, ?_, ?_⟩
  · intro c s hs
    simp [RustRCONClient.connect, hs]
  · intro s h
    cases h
  · intro s h
    have h2 : (RustRCONError.authenticationFailed.message).data.head?
        = ((RustRCONError.connectionRefused s).message).data.head? := by
      rw [h]
    have ha : (RustRCONError.authenticationFailed.message).data.head?
        = some 'A' := rfl
    have hc : ((RustRCONError.connectionRefused s).message).data.head?
        = some 'C' := rfl
    rw [ha, hc] at h2
    exact absurd h2 (by decide)

/-- Witness for connect_status_mapping at a non-401 rejection status. -/
theorem connect_status_mapping_witness :
    (clientEx.connect (.badStatus 404)).2.2
      = .error (.connectionRefused 404) :=
  connect_status_mapping.2.1 clientEx 404 (by decide)

/-- Helper case analysis over one `main` run: exactly one connection
attempt happens, and the exit code is 0 precisely when the attempt
succeeds (1 otherwise). -/
theorem mainRun_attempt_spec (args : Args) (cio : ConnectOutcome)
    (sio : ExchangeOutcome) :
    countAttempts (mainRun args (.run cio sio)).events = 1
    ∧ ((mainRun args (.run cio sio)).exitCode = 0 ↔ attemptOk cio sio = true)
    ∧ (attemptOk cio sio = false → (mainRun args (.run cio sio)).exitCode = 1) := by
  rcases cio with _ | _ | s | d <;>
    rcases sio with d2 | _ | d2 | ⟨raw, _ | r⟩ <;>
      simp [mainRun, RustRCONClient.connect, RustRCONClient.send_command,
            RustRCONClient.disconnect, RustRCONClient.init, attemptOk,
            countAttempts]

/-- Counterexample to claim C1: open fails on the first attempt (a
connection timeout) yet the program makes no second attempt — the whole run
performs exactly one connection attempt and exits non-zero, contradicting
the retry loop (default 3 attempts) the claim describes; there is also no
retry-count option in the parsed argument set. -/
theorem no_retry_loop_cex :
    (mainRun argsEx (.run .timeout (.reply "x" none))).exitCode = 1
    ∧ (mainRun argsEx (.run .timeout (.reply "x" none))).events
        = [.connectAttempt]
    ∧ (mainRun argsEx (.run .timeout (.reply "x" none))).output
        = [.rconError "Connection timed out. Check your host and port."] :=
  ⟨rfl, rfl, rfl⟩

/-- Claim C1 as amended: the program makes exactly one open+execute+close
attempt, with no retry loop and no retry-count option; a successful execute
exits 0, and a domain error from open or execute is reported and exits 1
with no further attempt. -/
theorem single_attempt_no_retry (args : Args) (cio : ConnectOutcome)
    (sio : ExchangeOutcome) :
    countAttempts (mainRun args (.run cio sio)).events = 1
    ∧ ((mainRun args (.run cio sio)).exitCode = 0 ↔ attemptOk cio sio = true)
    ∧ (attemptOk cio sio = false → (mainRun args (.run cio sio)).exitCode = 1) :=
  mainRun_attempt_spec args cio sio

/-- Witness for single_attempt_no_retry on a failing connect attempt. -/
theorem single_attempt_no_retry_witness :
    (mainRun argsEx (.run (.otherExn "dns") (.reply "x" none))).exitCode = 1 :=
  (single_attempt_no_retry argsEx (.otherExn "dns") (.reply "x" none)).2.2 rfl

/-- Claim C8: the process exits 0 on any successful execute and non-zero on
argument-parsing failure, on a failed attempt (the single attempt standing
in for exhausted retries) and on any unexpected uncaught error; a keyboard
interrupt exits 0; and on every path that opened the connection the close
also runs. -/
theorem exit_codes_and_cleanup :
    (∀ mio, (program none mio).exitCode ≠ 0)
    ∧ (∀ args cio sio,
        (mainRun args (.run cio sio)).exitCode = 0 ↔ attemptOk cio sio = true)
    ∧ (∀ args d, (mainRun args (.unexpectedAfterConnect d)).exitCode ≠ 0)
    ∧ (∀ args : Args, (mainRun args .interruptDuringConnect).exitCode = 0
        ∧ (mainRun args .interruptAwaitingReply).exitCode = 0)
    ∧ (∀ args mio, WsEvent.wsOpened ∈ (mainRun args mio).events →
        WsEvent.wsClosed ∈ (mainRun args mio).events) := by
  refine ⟨fun mio => by simp [program], ?_, fun args d => by simp [mainRun],
      fun args => ⟨rfl, rfl⟩, ?_⟩
  · intro args cio sio
    exact (mainRun_attempt_spec args cio sio).2.1
  · intro args mio
    rcases mio with ⟨cio, sio⟩ | _ | _ | d
    · rcases cio with _ | _ | s | d <;>
        rcases sio with d2 | _ | d2 | ⟨raw, _ | r⟩ <;>
          simp [mainRun, RustRCONClient.connect, RustRCONClient.send_command,
                RustRCONClient.disconnect, RustRCONClient.init]
    all_goals simp [mainRun]

/-- Witness for exit_codes_and_cleanup: on a successful run the connection
was opened and the close also ran. -/
theorem exit_codes_and_cleanup_witness :
    WsEvent.wsClosed
      ∈ (mainRun argsEx (.run .success (.reply "x" (some [])))).events :=
  exit_codes_and_cleanup.2.2.2.2 argsEx (.run .success (.reply "x" (some [])))
    (by decide)
